import Mathlib

/-!
Shallow embedding of the stream-reconciliation core of the eCorridor live
client (`src/app/page.tsx`, operator dashboard, and
`src/app/traveller/page.tsx`, traveller view): the Identity Ledger
(`recentMatches` upsert), the Camera Registry (`cameraIds`), the Decaying
Tag Store (`trackerColors` with its 5 s revert timeouts), the Alert Signal
Reducer (`alertColor`), the reconnection loop with multiplicative back-off,
thumbnail compression, and the frame compositor (`renderToCanvas`).
Time is absolute milliseconds (ℕ); JS floats are modelled as rationals.
-/

namespace ECorridor

/-- JavaScript `String.prototype.toLowerCase()` on the ASCII payloads used
by the stream, modelled character-wise. -/
def jsLower (s : String) : String := ⟨s.data.map Char.toLower⟩

/-- JavaScript `String.prototype.toUpperCase()` on the ASCII payloads used
by the stream, modelled character-wise. -/
def jsUpper (s : String) : String := ⟨s.data.map Char.toUpper⟩

/-! ## Identity Ledger (`recentMatches` in `src/app/page.tsx`) -/

/-- Payload of a `frames.matches` message (`MatchData` in
`src/app/page.tsx`): `score` is the raw confidence in `[0,1]` and
`face_crop` the raw JPEG bytes of the face crop. -/
structure MatchData where
  person_id : String
  tracker_id : ℤ
  score : ℚ
  face_crop : List ℕ
deriving DecidableEq

/-- One Identity Ledger entry (`RecentMatch` in `src/app/page.tsx`).
`score` holds the displayed percentage `(matchData.score * 100).toFixed(1)`
as an exact rational with one decimal digit; `time` holds the
`toLocaleTimeString()` string. -/
structure RecentMatch where
  id : String
  image : String
  score : ℚ
  time : String
  tracker_id : ℤ
deriving DecidableEq

/-- The ledger capacity (`MAX_MATCHES = 50` in `src/app/page.tsx`). -/
def MAX_MATCHES : ℕ := 50

/-- JavaScript `x.toFixed(1)` on the non-negative scores that occur here,
kept as an exact rational: round to one decimal place, half away from
zero as `Math`-style rounding does for positive inputs. -/
def toFixed1 (q : ℚ) : ℚ := ((round (q * 10) : ℤ) : ℚ) / 10

/-- The `RecentMatch` entry the `frames.matches` handler builds for one
event: identity, compressed thumbnail, percentage score, wall-clock string
and tracker id. -/
def entryOf (m : MatchData) (thumb timeStr : String) : RecentMatch :=
  { id := m.person_id, image := thumb, score := toFixed1 (m.score * 100),
    time := timeStr, tracker_id := m.tracker_id }

/-- The `setRecentMatches` updater of the `frames.matches` handler
(`src/app/page.tsx` lines 210–230): find the first entry with the same
`person_id`; if one exists drop it and cons the fresh entry at the head,
else just cons the fresh entry; finally truncate with
`slice(0, MAX_MATCHES)`. -/
def upsert (prev : List RecentMatch) (m : MatchData) (thumb timeStr : String) :
    List RecentMatch :=
  let entry := entryOf m thumb timeStr
  let next :=
    match prev.findIdx? (fun p => p.id == m.person_id) with
    | some i => entry :: prev.eraseIdx i
    | none => entry :: prev
  next.take MAX_MATCHES

/-! ## Camera Registry (`cameraIds` in both pages) -/

/-- The `setCameraIds` updater of the `frames.tracker` handler
(`src/app/page.tsx` lines 241–245) and of the `frames.raw` handler
(`src/app/traveller/page.tsx` lines 154–159): when the camera id is
already present return the list unchanged without persisting, otherwise
append it at the end and persist. The boolean records whether
`saveToSession` ran. -/
def observe (prev : List String) (cameraId : String) : List String × Bool :=
  if cameraId ∈ prev then (prev, false) else (prev ++ [cameraId], true)

/-! ## Decaying Tag Store (`trackerColors` in `src/app/page.tsx`) -/

/-- Payload of a `frames.color` message (`ColorMessage` in
`src/app/page.tsx`); `tracker_id` is optional in the schema. -/
structure ColorMessage where
  colorCode : String
  tracker_id : Option ℤ
deriving DecidableEq

/-- Decaying Tag Store state: `colors` models the `trackerColors` map and
`timers` models `colorTimeoutsRef`, recording per tracker the absolute
time at which its pending revert timeout will fire (`none` when no
timeout is pending). Both are total maps over tracker ids, so at most one
timeout handle can exist per tracker by construction. -/
structure TagStore where
  colors : ℤ → Option String
  timers : ℤ → Option ℕ

/-- The empty tag store: no colors, no pending timeouts. -/
def initTagStore : TagStore := { colors := fun _ => none, timers := fun _ => none }

/-- The tag revert window: the `5000` ms literal of
`setTimeout(…, 5000)` in the `frames.color` handler. -/
def TAG_REVERT_MS : ℕ := 5000

/-- The `frames.color` subscription handler (`src/app/page.tsx` lines
178–198) processed at absolute time `now`: skip when `tracker_id` is
absent; otherwise store the lowercased color; when that color is `"red"`,
clear any pending timeout for the tracker and schedule a fresh revert
timeout for `now + 5000`. A non-`"red"` color leaves `timers` untouched —
the source has no `clearTimeout` on that path. -/
def handleColor (s : TagStore) (msg : ColorMessage) (now : ℕ) : TagStore :=
  match msg.tracker_id with
  | none => s
  | some trackerId =>
    let color := jsLower msg.colorCode
    let colors' := fun j => if j = trackerId then some color else s.colors j
    if color == "red" then
      { colors := colors',
        timers := fun j => if j = trackerId then some (now + TAG_REVERT_MS)
                           else s.timers j }
    else
      { colors := colors', timers := s.timers }

/-- Fire every pending tag timeout whose deadline is at most `t`: the
timeout callback sets the tracker's color to `"green"` and deletes its
entry from `colorTimeoutsRef`. -/
def fireDue (s : TagStore) (t : ℕ) : TagStore :=
  { colors := fun j => match s.timers j with
      | some d => if d ≤ t then some "green" else s.colors j
      | none => s.colors j,
    timers := fun j => match s.timers j with
      | some d => if d ≤ t then none else s.timers j
      | none => s.timers j }

/-- Run the tag store up to observation time `t`: process each timestamped
`frames.color` message in order, firing the timeouts due by its timestamp
first, and finally fire the timeouts due by `t` itself. A message stamped
after `t` is not yet processed. -/
def runColor (msgs : List (ℕ × ColorMessage)) (t : ℕ) (s : TagStore) : TagStore :=
  match msgs with
  | [] => fireDue s t
  | (tm, msg) :: rest =>
    if tm ≤ t then runColor rest t (handleColor (fireDue s tm) msg tm)
    else fireDue s t

/-! ## Alert Signal Reducer (`alertColor` in `src/app/traveller/page.tsx`) -/

/-- Payload of a `frames.alert` message; `color` is optional because the
handler guards with `alertData.color?.toUpperCase()`. -/
structure AlertMessage where
  color : Option String
deriving DecidableEq

/-- Alert Signal Reducer state: the current overlay color (`"green"` for
clear, `"red"` for alert) and the pending revert timeout
(`alertTimeoutRef`), as the absolute time at which it fires. -/
structure AlertState where
  alertColor : String
  alertTimeout : Option ℕ
deriving DecidableEq

/-- The initial alert state: clear, no pending revert. -/
def initAlertState : AlertState := { alertColor := "green", alertTimeout := none }

/-- The alert revert window: the `5000` ms literal of
`setTimeout(…, 5000)` in the `frames.alert` handler. -/
def ALERT_REVERT_MS : ℕ := 5000

/-- The `frames.alert` subscription handler (`src/app/traveller/page.tsx`
lines 166–185) processed at absolute time `now`: on `"RED"` set the
overlay red, clear any pending revert timeout and schedule one for
`now + 5000`; on any other signal clear the pending timeout and set the
overlay green immediately. -/
def handleAlert (s : AlertState) (msg : AlertMessage) (now : ℕ) : AlertState :=
  if msg.color.map jsUpper == some "RED" then
    { alertColor := "red", alertTimeout := some (now + ALERT_REVERT_MS) }
  else
    { alertColor := "green", alertTimeout := none }

/-- Fire the pending alert revert timeout when its deadline is at most
`t`: set the overlay green and null the timeout handle. -/
def fireAlertDue (s : AlertState) (t : ℕ) : AlertState :=
  match s.alertTimeout with
  | some d => if d ≤ t then { alertColor := "green", alertTimeout := none } else s
  | none => s

/-- Run the alert reducer up to observation time `t`, analogous to
`runColor`. -/
def runAlert (msgs : List (ℕ × AlertMessage)) (t : ℕ) (s : AlertState) : AlertState :=
  match msgs with
  | [] => fireAlertDue s t
  | (tm, msg) :: rest =>
    if tm ≤ t then runAlert rest t (handleAlert (fireAlertDue s tm) msg tm)
    else fireAlertDue s t

/-! ## Reconnection Controller (`connectLoop` in both pages) -/

/-- The connection status values of both pages. -/
inductive ConnStatus where
  | connecting
  | connected
  | reconnecting
  | error
deriving DecidableEq

/-- Client state touched by `connectLoop`: the four entity stores, the two
presentation fields (`status`, `errorMessage`) and the loop-local
`reconnectDelay` (a JS number of milliseconds, modelled as a rational). -/
structure DashState where
  status : ConnStatus
  errorMessage : String
  cameraIds : List String
  recentMatches : List RecentMatch
  trackerColors : TagStore
  alert : AlertState
  reconnectDelay : ℚ

/-- The initial back-off delay: `let reconnectDelay = 1000`. -/
def INIT_DELAY : ℚ := 1000

/-- The back-off ceiling: `const MAX_DELAY = 30000`. -/
def MAX_DELAY : ℚ := 30000

/-- The state at mount: status `connecting`, empty error message, the two
session-restored stores, empty tag and alert stores, initial delay. -/
def initDashState (cams : List String) (restored : List RecentMatch) : DashState :=
  { status := .connecting, errorMessage := "", cameraIds := cams,
    recentMatches := restored, trackerColors := initTagStore,
    alert := initAlertState, reconnectDelay := INIT_DELAY }

/-- Connection-lifecycle events of `connectLoop` (`src/app/page.tsx` lines
158–276; structurally identical in `src/app/traveller/page.tsx` lines
129–204): the start of a connect attempt, a successful connect, the
`nc.closed()` notification, a connect exception carrying its message, and
the back-off sleep that grows the retry delay. -/
inductive ConnEvent where
  | attempt
  | opened
  | closed
  | failed (err : String)
  | backoff
deriving DecidableEq

/-- One `connectLoop` transition per event, transcribed from the source:
`attempt` runs `setStatus('connecting'); setErrorMessage('')`; `opened`
runs `setStatus('connected')` and resets `reconnectDelay = 1000`;
`closed` runs `setStatus('reconnecting')` with the interruption banner;
`failed` runs `setStatus('reconnecting')` with the retry countdown
message; `backoff` runs
`reconnectDelay = Math.min(reconnectDelay * 1.5, MAX_DELAY)`.
No case reads or writes the entity stores. -/
def connStep (s : DashState) (e : ConnEvent) : DashState :=
  match e with
  | .attempt => { s with status := .connecting, errorMessage := "" }
  | .opened => { s with status := .connected, reconnectDelay := INIT_DELAY }
  | .closed =>
    { s with
      status := .reconnecting
      errorMessage := "Stream interrupted — reconnecting…" }
  | .failed err =>
    { s with
      status := .reconnecting
      errorMessage := "Reconnecting in " ++
        toString (round (s.reconnectDelay / 1000) : ℤ) ++ "s… (" ++ err ++ ")" }
  | .backoff => { s with reconnectDelay := min (s.reconnectDelay * (3 / 2)) MAX_DELAY }

/-- Run `connectLoop` over a sequence of connection-lifecycle events. -/
def runConn (s : DashState) (evs : List ConnEvent) : DashState :=
  evs.foldl connStep s

/-! ## Frame Compositor (`renderToCanvas` in `src/app/page.tsx`) -/

/-- One face inside a `frames.tracker` payload (`TrackedFace`):
`person_id` is present once identity resolution succeeded, `bbox` is
`(x, y, w, h)`. -/
structure TrackedFace where
  person_id : Option String
  tracker_id : ℤ
  distance : Option ℚ
  bbox : ℚ × ℚ × ℚ × ℚ
deriving DecidableEq

/-- A `frames.tracker` payload (`TrackerData`); `tracked_faces` is
optional in the schema and `image` is the raw JPEG bytes. -/
structure TrackerData where
  frame_id : ℕ
  camera_id : String
  tracked_faces : Option (List TrackedFace)
  image : List ℕ
deriving DecidableEq

/-- Abstract 2-D canvas raster content, as the ordered drawing commands
that produced it: the decoded base frame, a bounding box stroke, the round
tag indicator, the label background and the label text. -/
inductive DrawOp where
  | image (cameraId : String) (frameId : ℕ)
  | strokeBox (x y w h : ℚ) (color : String)
  | indicator (cx cy r : ℚ) (fill : String)
  | labelBg (x y w h : ℚ) (color : String)
  | labelText (text : String) (x y : ℚ) (color : String)
deriving DecidableEq

/-- The per-face overlay drawing of `renderToCanvas` (`src/app/page.tsx`
lines 306–336): resolve the box/background/text colors from the tracker
tag first, else from whether `person_id` is resolved; stroke the bounding
box; draw the round indicator when a tag is present; draw the label
background sized by the measured text width, then the label text.
`measure` abstracts `ctx.measureText(label).width`. -/
def overlayOps (colors : ℤ → Option String) (measure : String → ℚ)
    (face : TrackedFace) : List DrawOp :=
  let (x, y, w, h) := face.bbox
  let trackerColor := colors face.tracker_id
  let boxColor :=
    if trackerColor == some "red" then "#ef4444"
    else if trackerColor == some "green" then "#22c55e"
    else match face.person_id with
         | some _ => "#1f8a70"
         | none => "#f4d35e"
  let textColor :=
    if trackerColor == some "red" then "#ffffff"
    else if trackerColor == some "green" then "#ffffff"
    else match face.person_id with
         | some _ => "#ffffff"
         | none => "#1e2a2f"
  let label := match face.person_id with
               | some p => "ID: " ++ p
               | none => "Unknown"
  let indicatorOps :=
    match trackerColor with
    | some c => [DrawOp.indicator (x + w / 2) (y + 15) 12
        (if c == "red" then "#ef4444" else "#22c55e")]
    | none => []
  DrawOp.strokeBox x y w h boxColor :: indicatorOps ++
    [DrawOp.labelBg x (y - 28) (measure label + 12) 24 boxColor,
     DrawOp.labelText label (x + 6) (y - 10) textColor]

/-- `renderToCanvas` (`src/app/page.tsx` lines 278–338) for one frame,
given that the camera's canvas and its 2-D context exist and the image
decodes. Returns the final content of the camera's own canvas and, when
this camera is the focused (expanded) one, the content copied to the
expanded canvas. Per the source order, the copy
(`expCtx.drawImage(canvas, 0, 0)`) runs right after the base raster is
drawn and before the detection overlays are appended, so it captures only
the decoded frame of that single decode. -/
def renderToCanvas (colors : ℤ → Option String) (measure : String → ℚ)
    (data : TrackerData) (expandedCamera : Option String) :
    List DrawOp × Option (List DrawOp) :=
  let base := [DrawOp.image data.camera_id data.frame_id]
  let mirrored := if expandedCamera == some data.camera_id then some base else none
  let main := base ++ (data.tracked_faces.getD []).flatMap (overlayOps colors measure)
  (main, mirrored)

/-! ## Thumbnail compression (`compressImageToBase64` in `src/app/page.tsx`) -/

/-- Browser-side image environment for `compressImageToBase64`: whether
the blob decodes (`img.onload` versus `img.onerror`), the decoded
dimensions, whether `canvas.getContext('2d')` returns a context, and the
opaque `canvas.toDataURL('image/jpeg', 0.6)` result as a function of the
thumbnail dimensions. -/
structure ImgEnv where
  decodeOk : Bool
  width : ℕ
  height : ℕ
  ctxOk : Bool
  toDataURL : ℕ → ℕ → String

/-- `compressImageToBase64` (`src/app/page.tsx` lines 65–84). The promise
always resolves: with `""` when the image fails to decode (`img.onerror`)
or when no 2-D context is available, and otherwise with the JPEG data-URL
of the at-most-96-px thumbnail whose dimensions follow the source's scale
computation `s = min(maxPx/max(w,1), maxPx/max(h,1), 1)` with
`Math.round`-ed, at-least-1 sides. -/
def compressImageToBase64 (env : ImgEnv) (raw : List ℕ) (maxPx : ℕ := 96) : String :=
  if env.decodeOk = false then ""
  else if env.ctxOk = false then ""
  else
    let s : ℚ := min (min ((maxPx : ℚ) / ((max env.width 1 : ℕ) : ℚ))
      ((maxPx : ℚ) / ((max env.height 1 : ℕ) : ℚ))) 1
    let cw : ℕ := max (round ((env.width : ℚ) * s)).toNat 1
    let ch : ℕ := max (round ((env.height : ℚ) * s)).toNat 1
    env.toDataURL cw ch

/-- The `frames.matches` subscription handler for one event
(`src/app/page.tsx` lines 201–232): await the thumbnail compression —
which always resolves — and upsert the resulting entry into the ledger. -/
def handleMatch (env : ImgEnv) (prev : List RecentMatch) (m : MatchData)
    (timeStr : String) : List RecentMatch :=
  upsert prev m (compressImageToBase64 env m.face_crop) timeStr

/-! ## Helper lemmas about the Identity Ledger -/

/-- `List.map` commutes with `List.eraseIdx`. -/
theorem map_eraseIdx_comm {α β : Type} (f : α → β) :
    ∀ (l : List α) (i : ℕ), (l.eraseIdx i).map f = (l.map f).eraseIdx i
  | [], _ => by simp
  | _ :: _, 0 => by simp
  | a :: l, i + 1 => by
    simp [List.eraseIdx_cons_succ, map_eraseIdx_comm f l i]

/-- In a duplicate-free list, erasing the index found for an element
removes every occurrence of it. -/
theorem not_mem_eraseIdx_findIdx {a : String} :
    ∀ {l : List String} {i : ℕ}, l.Nodup → l.findIdx? (· == a) = some i →
      a ∉ l.eraseIdx i := by
  intro l
  induction l with
  | nil => intro i _ h; simp at h
  | cons x xs ih =>
    intro i hnd h
    rw [List.findIdx?_cons] at h
    by_cases hx : (x == a) = true
    · rw [if_pos hx] at h
      obtain rfl : (0 : ℕ) = i := by simpa using h
      rw [List.eraseIdx_cons_zero]
      have hxa : x = a := by simpa using hx
      subst hxa
      exact (List.nodup_cons.mp hnd).1
    · rw [if_neg hx] at h
      rw [List.findIdx?_succ] at h
      obtain ⟨j, hj, rfl⟩ := Option.map_eq_some'.mp h
      rw [List.eraseIdx_cons_succ]
      intro hmem
      rcases List.mem_cons.mp hmem with rfl | hmem'
      · exact hx (by simp)
      · exact ih (List.nodup_cons.mp hnd).2 hj hmem'

/-- The head of the ledger after an upsert is always the fresh entry. -/
theorem upsert_head (prev : List RecentMatch) (m : MatchData)
    (thumb timeStr : String) :
    (upsert prev m thumb timeStr).head? = some (entryOf m thumb timeStr) := by
  unfold upsert
  cases h : prev.findIdx? (fun p => p.id == m.person_id) <;>
    simp [h, List.head?_take, MAX_MATCHES]

/-- The ledger never exceeds its capacity after an upsert. -/
theorem upsert_length_le (prev : List RecentMatch) (m : MatchData)
    (thumb timeStr : String) :
    (upsert prev m thumb timeStr).length ≤ MAX_MATCHES := by
  unfold upsert
  cases h : prev.findIdx? (fun p => p.id == m.person_id) <;> simp [h]

/-- When no entry matches the subject, upsert prepends and truncates. -/
theorem upsert_eq_of_findIdx_none {prev : List RecentMatch} {m : MatchData}
    (thumb timeStr : String)
    (h : prev.findIdx? (fun p => p.id == m.person_id) = none) :
    upsert prev m thumb timeStr =
      (entryOf m thumb timeStr :: prev).take MAX_MATCHES := by
  unfold upsert
  rw [h]

/-- When the first matching entry sits at index `i`, upsert removes it,
prepends the fresh entry and truncates. -/
theorem upsert_eq_of_findIdx_some {prev : List RecentMatch} {m : MatchData}
    {i : ℕ} (thumb timeStr : String)
    (h : prev.findIdx? (fun p => p.id == m.person_id) = some i) :
    upsert prev m thumb timeStr =
      (entryOf m thumb timeStr :: prev.eraseIdx i).take MAX_MATCHES := by
  unfold upsert
  rw [h]

/-- An upsert preserves freedom from duplicate subject ids. -/
theorem upsert_nodup {prev : List RecentMatch} (m : MatchData)
    (thumb timeStr : String) (hnd : (prev.map RecentMatch.id).Nodup) :
    ((upsert prev m thumb timeStr).map RecentMatch.id).Nodup := by
  have take_pres : ∀ next : List RecentMatch, (next.map RecentMatch.id).Nodup →
      ((next.take MAX_MATCHES).map RecentMatch.id).Nodup := by
    intro next h
    rw [List.map_take]
    exact (List.take_sublist _ _).nodup h
  cases h : prev.findIdx? (fun p => p.id == m.person_id) with
  | none =>
    rw [upsert_eq_of_findIdx_none thumb timeStr h]
    refine take_pres _ ?_
    rw [List.map_cons, List.nodup_cons]
    refine ⟨?_, hnd⟩
    intro hmem
    obtain ⟨p, hp, hpid⟩ := List.mem_map.mp hmem
    have := List.findIdx?_eq_none_iff.mp h p hp
    simp only [entryOf] at hpid
    rw [hpid] at this
    simp at this
  | some i =>
    rw [upsert_eq_of_findIdx_some thumb timeStr h]
    refine take_pres _ ?_
    rw [List.map_cons, List.nodup_cons]
    have hmap : (prev.map RecentMatch.id).findIdx? (· == m.person_id) = some i := by
      rw [List.findIdx?_map]
      exact h
    constructor
    · rw [map_eraseIdx_comm]
      exact not_mem_eraseIdx_findIdx hnd hmap
    · rw [map_eraseIdx_comm]
      exact (List.eraseIdx_sublist _ _).nodup hnd

/-- Folding the match handler over any event sequence preserves the
no-duplicate-subject invariant of the ledger. -/
theorem foldl_upsert_nodup (events : List (MatchData × String × String)) :
    ∀ acc : List RecentMatch, (acc.map RecentMatch.id).Nodup →
      ((events.foldl (fun acc e => upsert acc e.1 e.2.1 e.2.2) acc).map
        RecentMatch.id).Nodup := by
  induction events with
  | nil => intro acc h; exact h
  | cons e es ih =>
    intro acc h
    exact ih _ (upsert_nodup _ _ _ h)

/-- Folding the match handler over any event sequence preserves the
capacity bound of the ledger. -/
theorem foldl_upsert_length (events : List (MatchData × String × String)) :
    ∀ acc : List RecentMatch, acc.length ≤ MAX_MATCHES →
      (events.foldl (fun acc e => upsert acc e.1 e.2.1 e.2.2) acc).length ≤
        MAX_MATCHES := by
  induction events with
  | nil => intro acc h; exact h
  | cons e es ih =>
    intro acc _
    exact ih _ (upsert_length_le _ _ _ _)

/-! ## Claim theorems: Identity Ledger, Camera Registry, thumbnails -/

/-- Claim C1: an Identity Ledger upsert looks up the existing entry by
subject id — replacing it and moving the fresh record to the head when
found, inserting the fresh record at the head when not — then truncates
the list to `MAX_MATCHES` dropping from the tail; in particular two
consecutive upserts for subject `"P1"` with confidences `0.719` then
`0.811` leave a one-entry ledger whose head carries the `0.811`
confidence, stored as the displayed percentage `81.1`. -/
theorem c1_identity_ledger_upsert :
    (∀ (prev : List RecentMatch) (m : MatchData) (thumb timeStr : String),
      (upsert prev m thumb timeStr).head? = some (entryOf m thumb timeStr) ∧
      (upsert prev m thumb timeStr).length ≤ MAX_MATCHES ∧
      (prev.findIdx? (fun p => p.id == m.person_id) = none →
        upsert prev m thumb timeStr =
          (entryOf m thumb timeStr :: prev).take MAX_MATCHES) ∧
      (∀ i, prev.findIdx? (fun p => p.id == m.person_id) = some i →
        upsert prev m thumb timeStr =
          (entryOf m thumb timeStr :: prev.eraseIdx i).take MAX_MATCHES)) ∧
    (upsert (upsert [] ⟨"P1", 7, 719 / 1000, []⟩ "thumbA" "t1")
        ⟨"P1", 7, 811 / 1000, []⟩ "thumbB" "t2" =
      [entryOf ⟨"P1", 7, 811 / 1000, []⟩ "thumbB" "t2"] ∧
      (entryOf ⟨"P1", 7, 811 / 1000, []⟩ "thumbB" "t2").score = 811 / 10) := by
  constructor
  · intro prev m thumb timeStr
    exact ⟨upsert_head _ _ _ _, upsert_length_le _ _ _ _,
      fun h => upsert_eq_of_findIdx_none _ _ h,
      fun i h => upsert_eq_of_findIdx_some _ _ h⟩
  · constructor
    · have h1 : upsert [] ⟨"P1", 7, 719 / 1000, []⟩ "thumbA" "t1" =
          [entryOf ⟨"P1", 7, 719 / 1000, []⟩ "thumbA" "t1"] := by
        rw [@upsert_eq_of_findIdx_none [] ⟨"P1", 7, 719 / 1000, []⟩
          "thumbA" "t1" rfl]
        rfl
      rw [h1, @upsert_eq_of_findIdx_some
        [entryOf ⟨"P1", 7, 719 / 1000, []⟩ "thumbA" "t1"]
        ⟨"P1", 7, 811 / 1000, []⟩ 0 "thumbB" "t2" rfl]
      rfl
    · norm_num [entryOf, toFixed1, round_eq]

/-- Concrete instantiation of the C1 theorem: inserting into the empty
ledger takes the not-found branch. -/
theorem c1_identity_ledger_upsert_witness :
    upsert [] ⟨"P9", 3, 1 / 2, []⟩ "th" "t0" =
      (entryOf ⟨"P9", 3, 1 / 2, []⟩ "th" "t0" :: []).take MAX_MATCHES :=
  (c1_identity_ledger_upsert.1 [] ⟨"P9", 3, 1 / 2, []⟩ "th" "t0").2.2.1 rfl

/-- Claim C4: over any sequence of upserts starting from the empty
ledger — repeated subject ids included — the ledger size never exceeds
`MAX_MATCHES` and the ledger holds at most one entry per subject id.
Every prefix of an event sequence is itself an event sequence, so this
covers each intermediate state of a run. -/
theorem c4_ledger_bounded_and_deduped
    (events : List (MatchData × String × String)) :
    (events.foldl (fun acc e => upsert acc e.1 e.2.1 e.2.2) []).length ≤
      MAX_MATCHES ∧
    ((events.foldl (fun acc e => upsert acc e.1 e.2.1 e.2.2) []).map
      RecentMatch.id).Nodup :=
  ⟨foldl_upsert_length events [] (Nat.zero_le _),
   foldl_upsert_nodup events [] List.nodup_nil⟩

/-- Claim C9: `observe` on the Camera Registry is idempotent: a known
camera id leaves the registry unchanged with no persist, an unknown one
is appended at the tail and persisted, and a second observe of the same
id returns the registry of the first observe unchanged with no persist. -/
theorem c9_observe_idempotent (prev : List String) (c : String) :
    (c ∈ prev → observe prev c = (prev, false)) ∧
    (c ∉ prev → observe prev c = (prev ++ [c], true)) ∧
    observe (observe prev c).1 c = ((observe prev c).1, false) := by
  refine ⟨fun h => by simp [observe, h], fun h => by simp [observe, h], ?_⟩
  by_cases h : c ∈ prev
  · simp [observe, h]
  · simp [observe, h]

/-- Concrete instantiation of the C9 theorem: observing a fresh camera
appends and persists; observing it again is a silent no-op. -/
theorem c9_observe_idempotent_witness :
    observe ["cam1"] "cam2" = (["cam1", "cam2"], true) ∧
    observe ["cam1", "cam2"] "cam2" = (["cam1", "cam2"], false) :=
  ⟨(c9_observe_idempotent ["cam1"] "cam2").2.1 (by decide),
   (c9_observe_idempotent ["cam1", "cam2"] "cam2").1 (by decide)⟩

/-- Claim C10: processing a match event never fails and never drops the
event when its thumbnail cannot be produced: the compression always
resolves — with the empty string when image decoding fails or no 2-D
context is available — and the match record is still upserted into the
ledger with that empty-string image. -/
theorem c10_thumbnail_failure_still_upserts (env : ImgEnv)
    (prev : List RecentMatch) (m : MatchData) (timeStr : String)
    (h : env.decodeOk = false ∨ env.ctxOk = false) :
    compressImageToBase64 env m.face_crop = "" ∧
    handleMatch env prev m timeStr = upsert prev m "" timeStr ∧
    (handleMatch env prev m timeStr).head? = some (entryOf m "" timeStr) := by
  have hc : compressImageToBase64 env m.face_crop = "" := by
    rcases h with h | h
    · simp [compressImageToBase64, h]
    · by_cases hd : env.decodeOk = false
      · simp [compressImageToBase64, hd]
      · simp [compressImageToBase64, hd, h]
  refine ⟨hc, ?_, ?_⟩
  · rw [handleMatch, hc]
  · rw [handleMatch, hc]
    exact upsert_head _ _ _ _

/-- Concrete instantiation of the C10 theorem: a failing decode still
yields an upsert with an empty thumbnail. -/
theorem c10_thumbnail_failure_still_upserts_witness :
    handleMatch ⟨false, 8, 8, true, fun _ _ => "url"⟩ []
        ⟨"P1", 7, 1 / 2, [0]⟩ "t0" =
      upsert [] ⟨"P1", 7, 1 / 2, [0]⟩ "" "t0" :=
  (c10_thumbnail_failure_still_upserts ⟨false, 8, 8, true, fun _ _ => "url"⟩
    [] ⟨"P1", 7, 1 / 2, [0]⟩ "t0" (Or.inl rfl)).2.1

/-! ## Claim theorems: Reconnection Controller -/

/-- A single connection-lifecycle transition never touches the Camera
Registry, the Identity Ledger, the Decaying Tag Store or the Alert
state. -/
theorem connStep_preserves_stores (s : DashState) (e : ConnEvent) :
    (connStep s e).cameraIds = s.cameraIds ∧
    (connStep s e).recentMatches = s.recentMatches ∧
    (connStep s e).trackerColors = s.trackerColors ∧
    (connStep s e).alert = s.alert := by
  cases e <;> exact ⟨rfl, rfl, rfl, rfl⟩

/-- Claim C2: over any sequence of connection-lifecycle events — connect
attempts, failures, disconnects, back-off sleeps and successful
reconnects in any number and order — the Camera Registry, the Identity
Ledger, the Decaying Tag Store and the Alert state are exactly what they
were before the sequence; connection transitions change only the status,
error-message and back-off fields. -/
theorem c2_no_data_loss_across_reconnects (s : DashState)
    (evs : List ConnEvent) :
    (runConn s evs).cameraIds = s.cameraIds ∧
    (runConn s evs).recentMatches = s.recentMatches ∧
    (runConn s evs).trackerColors = s.trackerColors ∧
    (runConn s evs).alert = s.alert := by
  induction evs generalizing s with
  | nil => exact ⟨rfl, rfl, rfl, rfl⟩
  | cons e es ih =>
    obtain ⟨h1, h2, h3, h4⟩ := ih (connStep s e)
    obtain ⟨g1, g2, g3, g4⟩ := connStep_preserves_stores s e
    exact ⟨h1.trans g1, h2.trans g2, h3.trans g3, h4.trans g4⟩

/-- Claim C6: the reconnect back-off starts at `INIT_DELAY` (1000 ms);
each back-off sleep multiplies the delay by 1.5 capped at `MAX_DELAY`
(30000 ms) — so it never exceeds the ceiling — a successful reconnect
resets it to `INIT_DELAY` immediately, and no other lifecycle event
changes it. -/
theorem c6_backoff_growth_and_reset :
    (∀ cams restored, (initDashState cams restored).reconnectDelay =
      INIT_DELAY) ∧
    (∀ s : DashState, (connStep s .opened).reconnectDelay = INIT_DELAY) ∧
    (∀ s : DashState, (connStep s .backoff).reconnectDelay =
      min (s.reconnectDelay * (3 / 2)) MAX_DELAY) ∧
    (∀ s : DashState, (connStep s .backoff).reconnectDelay ≤ MAX_DELAY) ∧
    (∀ s : DashState, (connStep s .attempt).reconnectDelay =
      s.reconnectDelay) ∧
    (∀ s : DashState, (connStep s .closed).reconnectDelay =
      s.reconnectDelay) ∧
    (∀ (s : DashState) (err : String),
      (connStep s (.failed err)).reconnectDelay = s.reconnectDelay) :=
  ⟨fun _ _ => rfl, fun _ => rfl, fun _ => rfl,
   fun s => min_le_right (s.reconnectDelay * (3 / 2)) MAX_DELAY,
   fun _ => rfl, fun _ => rfl, fun _ _ => rfl⟩

/-! ## Claim theorems: Decaying Tag Store and Alert Signal Reducer -/

/-- A red `frames.color` message overwrites both the stored color and the
pending revert deadline of its tracker, whatever they were before —
`clearTimeout` followed by a fresh `setTimeout`. -/
theorem handleColor_red_eq (s : TagStore) (id : ℤ) (now : ℕ) :
    handleColor s ⟨"red", some id⟩ now =
      { colors := fun j => if j = id then some "red" else s.colors j,
        timers := fun j => if j = id then some (now + TAG_REVERT_MS)
                           else s.timers j } := rfl

/-- Claim C3: for any sequence of red (alert) tag messages for tracker
`id` at times `pre ++ [t0]` and silence afterwards, the tag reads
`"red"` at every observation time in `[t0, t0 + 5000)` with the single
pending timeout scheduled by the last re-set, and reads `"green"` with
no pending timeout at every time from `t0 + 5000` on: the revert happens
exactly `TAG_REVERT_MS` after the last re-set, each re-set replacing —
not stacking — the previous timeout. -/
theorem c3_tag_alert_decay (pre : List ℕ) (t0 t : ℕ) (id : ℤ) (s : TagStore)
    (hpre : ∀ tm ∈ pre, tm ≤ t0) (ht : t0 ≤ t) :
    (t < t0 + TAG_REVERT_MS →
      (runColor ((pre ++ [t0]).map (fun tm => (tm, ⟨"red", some id⟩))) t
        s).colors id = some "red" ∧
      (runColor ((pre ++ [t0]).map (fun tm => (tm, ⟨"red", some id⟩))) t
        s).timers id = some (t0 + TAG_REVERT_MS)) ∧
    (t0 + TAG_REVERT_MS ≤ t →
      (runColor ((pre ++ [t0]).map (fun tm => (tm, ⟨"red", some id⟩))) t
        s).colors id = some "green" ∧
      (runColor ((pre ++ [t0]).map (fun tm => (tm, ⟨"red", some id⟩))) t
        s).timers id = none) := by
  induction pre generalizing s with
  | nil =>
    have hrun : runColor (([] ++ [t0]).map (fun tm =>
        ((tm, ⟨"red", some id⟩) : ℕ × ColorMessage))) t s =
        fireDue (handleColor (fireDue s t0) ⟨"red", some id⟩ t0) t := by
      show (if t0 ≤ t then
          fireDue (handleColor (fireDue s t0) ⟨"red", some id⟩ t0) t
        else fireDue s t) = _
      rw [if_pos ht]
    rw [hrun, handleColor_red_eq]
    constructor
    · intro hlt
      have hnot : ¬ (t0 + TAG_REVERT_MS ≤ t) := by omega
      constructor <;> simp [fireDue, hnot]
    · intro hge
      constructor <;> simp [fireDue, hge]
  | cons tm pre ih =>
    have htm : tm ≤ t := le_trans (hpre tm (by simp)) ht
    have hstep : runColor (((tm :: pre) ++ [t0]).map (fun x =>
        ((x, ⟨"red", some id⟩) : ℕ × ColorMessage))) t s =
        runColor ((pre ++ [t0]).map (fun x =>
          ((x, ⟨"red", some id⟩) : ℕ × ColorMessage))) t
          (handleColor (fireDue s tm) ⟨"red", some id⟩ tm) := by
      rw [List.cons_append, List.map_cons]
      show (if tm ≤ t then
          runColor ((pre ++ [t0]).map (fun x =>
            ((x, ⟨"red", some id⟩) : ℕ × ColorMessage))) t
            (handleColor (fireDue s tm) ⟨"red", some id⟩ tm)
        else fireDue s t) = _
      rw [if_pos htm]
    rw [hstep]
    exact ih (handleColor (fireDue s tm) ⟨"red", some id⟩ tm)
      (fun x hx => hpre x (List.mem_cons_of_mem _ hx))

/-- Concrete instantiation of the C3 theorem: red tags for tracker 7 at
times 0 and 3, observed at time 10 (before expiry) — the tag is red with
its timeout at `3 + 5000`. -/
theorem c3_tag_alert_decay_witness :
    (runColor [(0, ⟨"red", some 7⟩), (3, ⟨"red", some 7⟩)] 10
      initTagStore).colors 7 = some "red" ∧
    (runColor [(0, ⟨"red", some 7⟩), (3, ⟨"red", some 7⟩)] 10
      initTagStore).timers 7 = some (3 + TAG_REVERT_MS) :=
  (c3_tag_alert_decay [0] 3 10 7 initTagStore (by simp) (by decide)).1
    (by decide)

/-- Claim C7: the Alert Signal Reducer sets the level to alert and
(re-)schedules the single revert timeout on every `"RED"` signal, clears
the level and cancels the timeout immediately on any other signal, and
after a `"RED"` signal at `t0` with no further signal the level is still
alert strictly before `t0 + 5000` and is clear, with no pending timeout,
from `t0 + 5000` on — the revert fires exactly at `t = t0 + 5000`, not
before. -/
theorem c7_alert_set_and_decay :
    (∀ (s : AlertState) (now : ℕ), handleAlert s ⟨some "RED"⟩ now =
      ⟨"red", some (now + ALERT_REVERT_MS)⟩) ∧
    (∀ (s : AlertState) (msg : AlertMessage) (now : ℕ),
      ¬ msg.color.map jsUpper = some "RED" →
      handleAlert s msg now = ⟨"green", none⟩) ∧
    (∀ (t0 t : ℕ) (s : AlertState), t0 ≤ t →
      (t < t0 + ALERT_REVERT_MS →
        runAlert [(t0, ⟨some "RED"⟩)] t s =
          ⟨"red", some (t0 + ALERT_REVERT_MS)⟩) ∧
      (t0 + ALERT_REVERT_MS ≤ t →
        runAlert [(t0, ⟨some "RED"⟩)] t s = ⟨"green", none⟩)) := by
  refine ⟨fun s now => rfl, ?_, ?_⟩
  · intro s msg now h
    have hb : (msg.color.map jsUpper == some "RED") = false := by
      simpa using h
    simp [handleAlert, hb]
  · intro t0 t s ht
    have hrun : runAlert [(t0, ⟨some "RED"⟩)] t s =
        fireAlertDue (handleAlert (fireAlertDue s t0) ⟨some "RED"⟩ t0) t := by
      show (if t0 ≤ t then
          fireAlertDue (handleAlert (fireAlertDue s t0) ⟨some "RED"⟩ t0) t
        else fireAlertDue s t) = _
      rw [if_pos ht]
    rw [hrun]
    constructor
    · intro hlt
      have hnot : ¬ (t0 + ALERT_REVERT_MS ≤ t) := by omega
      show fireAlertDue ⟨"red", some (t0 + ALERT_REVERT_MS)⟩ t = _
      simp [fireAlertDue, hnot]
    · intro hge
      show fireAlertDue ⟨"red", some (t0 + ALERT_REVERT_MS)⟩ t = _
      simp [fireAlertDue, hge]

/-- Concrete instantiation of the C7 theorem: a non-red signal clears
immediately, and a red signal at time 2 observed at time 5002 has
reverted to clear. -/
theorem c7_alert_set_and_decay_witness :
    handleAlert ⟨"red", some 99⟩ ⟨some "green"⟩ 4 = ⟨"green", none⟩ ∧
    runAlert [(2, ⟨some "RED"⟩)] 5002 initAlertState = ⟨"green", none⟩ :=
  ⟨c7_alert_set_and_decay.2.1 ⟨"red", some 99⟩ ⟨some "green"⟩ 4 (by decide),
   (c7_alert_set_and_decay.2.2 2 5002 initAlertState (by decide)).2
     (by decide)⟩

/-- Claim C8 is false on the code: after a red tag for tracker 7 at time
0 and a green ("normal") tag message for the same tracker at time 1, the
tag reads green but the expiry timeout scheduled by the red message is
still live — the non-red path of the `frames.color` handler has no
`clearTimeout`. -/
theorem c8_counterexample :
    (handleColor (handleColor initTagStore ⟨"red", some 7⟩ 0)
        ⟨"green", some 7⟩ 1).colors 7 = some "green" ∧
    (handleColor (handleColor initTagStore ⟨"red", some 7⟩ 0)
        ⟨"green", some 7⟩ 1).timers 7 = some TAG_REVERT_MS ∧
    ¬ (handleColor (handleColor initTagStore ⟨"red", some 7⟩ 0)
        ⟨"green", some 7⟩ 1).timers 7 = none := by
  refine ⟨?_, ?_, ?_⟩ <;> decide

/-- Claim C8 amended: a `frames.color` event whose lowercased color is
not `"red"` sets the tag directly but leaves the pending-timeout map
entirely unchanged — a live expiry timeout for the tracker, if any,
stays scheduled and will still fire. -/
theorem c8_amended_normal_keeps_timer (s : TagStore) (id : ℤ)
    (code : String) (now : ℕ) (h : ¬ jsLower code = "red") :
    (handleColor s ⟨code, some id⟩ now).colors id = some (jsLower code) ∧
    (handleColor s ⟨code, some id⟩ now).timers = s.timers := by
  have hb : (jsLower code == "red") = false := by
    simpa using h
  constructor
  · simp [handleColor, hb]
  · simp [handleColor, hb]

/-- Concrete instantiation of the amended C8 theorem: a green message on
the empty store sets the color and leaves the (empty) timeout map as it
was. -/
theorem c8_amended_normal_keeps_timer_witness :
    (handleColor initTagStore ⟨"green", some 7⟩ 2).colors 7 =
      some (jsLower "green") ∧
    (handleColor initTagStore ⟨"green", some 7⟩ 2).timers =
      initTagStore.timers :=
  c8_amended_normal_keeps_timer initTagStore 7 "green" 2 (by decide)

/-! ## Claim theorems: Frame Compositor mirroring -/

/-- Claim C5 is false on the code: for a frame of the focused camera
`"A"` carrying one detection, the focused surface receives only the
decoded base raster — the copy to the expanded canvas happens before the
bounding box, indicator and label are drawn — so it is not an exact copy
of the fully rendered raster of that frame. -/
theorem c5_counterexample :
    (renderToCanvas (fun _ => none) (fun _ => 60)
        ⟨1, "A", some [⟨none, 7, none, (10, 10, 20, 20)⟩], [1]⟩
        (some "A")).2 =
      some [DrawOp.image "A" 1] ∧
    ¬ (renderToCanvas (fun _ => none) (fun _ => 60)
        ⟨1, "A", some [⟨none, 7, none, (10, 10, 20, 20)⟩], [1]⟩
        (some "A")).2 =
      some (renderToCanvas (fun _ => none) (fun _ => 60)
        ⟨1, "A", some [⟨none, 7, none, (10, 10, 20, 20)⟩], [1]⟩
        (some "A")).1 := by
  refine ⟨rfl, ?_⟩
  intro h
  have h' : [DrawOp.image "A" 1] =
      (renderToCanvas (fun _ => none) (fun _ => 60)
        ⟨1, "A", some [⟨none, 7, none, (10, 10, 20, 20)⟩], [1]⟩
        (some "A")).1 := Option.some.inj h
  have hlen : (1 : ℕ) = 4 := congrArg List.length h'
  exact absurd hlen (by decide)

/-- Claim C5 amended: for every frame rendered while its camera is the
focused camera, the focused surface receives the raster of that frame's
single decode as captured right after the base image is drawn — the same
decoded content on both surfaces, but without the bounding boxes,
indicators and labels, which are appended to the camera's own canvas
after the copy. -/
theorem c5_amended_mirror_base_only (colors : ℤ → Option String)
    (measure : String → ℚ) (data : TrackerData) (focused : Option String)
    (h : focused = some data.camera_id) :
    (renderToCanvas colors measure data focused).2 =
      some [DrawOp.image data.camera_id data.frame_id] ∧
    (renderToCanvas colors measure data focused).1 =
      DrawOp.image data.camera_id data.frame_id ::
        (data.tracked_faces.getD []).flatMap (overlayOps colors measure) := by
  subst h
  constructor
  · simp [renderToCanvas]
  · simp [renderToCanvas]

/-- Concrete instantiation of the amended C5 theorem: a detection-free
frame of the focused camera `"B"` mirrors exactly the decoded raster. -/
theorem c5_amended_mirror_base_only_witness :
    (renderToCanvas (fun _ => none) (fun _ => 60) ⟨2, "B", none, [1]⟩
        (some "B")).2 = some [DrawOp.image "B" 2] ∧
    (renderToCanvas (fun _ => none) (fun _ => 60) ⟨2, "B", none, [1]⟩
        (some "B")).1 = [DrawOp.image "B" 2] :=
  c5_amended_mirror_base_only (fun _ => none) (fun _ => 60)
    ⟨2, "B", none, [1]⟩ (some "B") rfl

end ECorridor
